import Mathlib

/-!
Verification development for the PDF-Vault repository: a shallow embedding of
the seal layer (AES-GCM cipher engine, policy store, access evaluator), the
in-memory proof-record storage, and the HTTP route handlers that orchestrate
registration, lookup, anchor update and decrypted retrieval.

Byte buffers are embedded as `List Nat`; absent/`undefined` string values as
`Option String`; thrown JavaScript `Error`s as `Except String` carrying the
exact message text from the source, since the route layer distinguishes error
kinds only by substring matching on those messages.
-/

namespace PDFVault

/-- Byte buffers (`Buffer` in the source). -/
abbrev Bytes := List Nat

/-- JavaScript `String.prototype.toLowerCase` (ASCII case folding), as a
character-wise map. -/
def toLowerStr (s : String) : String :=
  String.mk (s.data.map Char.toLower)

/-- JavaScript truthiness of an optional string value: `undefined` and the
empty string are falsy, every other string is truthy. -/
def truthy : Option String → Bool
  | none => false
  | some s => !(s == "")

/-- `needle.isPrefixOf hay` on character lists, written out. -/
def startsWith : List Char → List Char → Bool
  | [], _ => true
  | _ :: _, [] => false
  | a :: as, b :: bs => a == b && startsWith as bs

/-- Whether `needle` occurs as a contiguous run inside `hay`. -/
def occursIn (needle : List Char) : List Char → Bool
  | [] => startsWith needle []
  | c :: rest => startsWith needle (c :: rest) || occursIn needle rest

/-- JavaScript `String.prototype.includes` over our strings. -/
def strIncludes (s sub : String) : Bool :=
  occursIn sub.toList s.toList

/-! ## Seal service data model (sealService.ts) -/

/-- The `policy` field stored with every seal object, as built by the
register route: an allowed-viewer list, an optional secret access code, and
the `requireApproval` flag. -/
structure Policy where
  allowedViewers : List String
  secretAccessCode : Option String
  requireApproval : Bool
deriving DecidableEq

/-- One entry of the seal service's `sealObjects` map. -/
structure SealObject where
  ownerAddress : String
  encryptionKey : String
  policy : Policy
  createdAt : Nat
deriving DecidableEq

/-- Result of `getDecryptionKey` on the grant path. -/
structure GetKeyResult where
  decryptKey : String
  approved : Bool
deriving DecidableEq

/-- The policy object the register route (routes.ts) passes to
`sealService.encryptCV`:
`allowedViewers` only in `specific_wallets` mode, the generated/supplied
secret code, and `requireApproval` exactly when the mode is `owner_only`. -/
def mkPolicy (accessMode : String) (allowedViewers : List String)
    (generatedSecretCode : Option String) : Policy :=
  { allowedViewers := if accessMode == "specific_wallets" then allowedViewers else []
    secretAccessCode := generatedSecretCode
    requireApproval := accessMode == "owner_only" }

/-- The register route's secret-code resolution: in `secret_code` mode with
no (truthy) code supplied, use the freshly generated 16-hex-character code;
otherwise pass the caller's value through. -/
def generatedSecretCode (accessMode : String) (secretAccessCode : Option String)
    (freshCode : String) : Option String :=
  if accessMode == "secret_code" && !(truthy secretAccessCode) then some freshCode
  else secretAccessCode

/-- The seal object `encryptCV` inserts into its `sealObjects` map for a
registration processed by the register route. -/
def registerSealObject (accessMode : String) (walletAddress : String)
    (allowedViewers : List String) (code : Option String)
    (encryptionKey : String) (createdAt : Nat) : SealObject :=
  { ownerAddress := walletAddress
    encryptionKey := encryptionKey
    policy := mkPolicy accessMode allowedViewers code
    createdAt := createdAt }

/-- `SealService.getDecryptionKey`: look up the seal object, then
(method 1) if a secret code is supplied and the policy stores one, grant on
exact match and throw otherwise; (method 2) if a viewer address is supplied,
grant when it is the owner, an allowed viewer (case-insensitive), or the
policy does not require approval, and throw otherwise; with no credential,
throw. Thrown errors carry the source's message text. -/
def getDecryptionKey (sealObjects : String → Option SealObject)
    (sealObjectId : String)
    (viewerAddress secretAccessCode : Option String) :
    Except String GetKeyResult :=
  match sealObjects sealObjectId with
  | none => Except.error ("Seal object not found: " ++ sealObjectId)
  | some sealObject =>
    if truthy secretAccessCode && truthy sealObject.policy.secretAccessCode then
      if secretAccessCode == sealObject.policy.secretAccessCode then
        Except.ok { decryptKey := sealObject.encryptionKey, approved := true }
      else
        Except.error "Access denied. Invalid secret access code."
    else if truthy viewerAddress then
      let viewer := viewerAddress.getD ""
      let isOwner := toLowerStr viewer == toLowerStr sealObject.ownerAddress
      let isAllowedViewer :=
        sealObject.policy.allowedViewers.any
          (fun addr => toLowerStr addr == toLowerStr viewer)
      let approved := isOwner || isAllowedViewer || !sealObject.policy.requireApproval
      if approved then
        Except.ok { decryptKey := sealObject.encryptionKey, approved := true }
      else
        Except.error ("Access denied. Wallet " ++ viewer ++
          " is not authorized to decrypt this CV.")
    else
      Except.error "Access denied. Please provide either a wallet address or secret access code."

/-- The decrypted-retrieval route's catch block: `Access denied` messages map
to HTTP 403, `not found` messages to 404, everything else to 500. -/
def statusOfError (msg : String) : Nat :=
  if strIncludes msg "Access denied" then 403
  else if strIncludes msg "not found" then 404
  else 500

/-! ## Cipher engine (sealService.ts `encryptCV` / `decryptCV`)

AES-256-GCM encrypts the body in counter mode — ciphertext byte `i` is
plaintext byte `i` XOR a keystream byte derived from the key and the IV —
and appends an authentication tag computed from key, IV and ciphertext body.
The two key-and-IV-indexed primitives (keystream derivation, tag
computation) are opaque cryptographic functions; the packing
`iv || encrypted || authTag`, the fixed 16-byte IV/tag offsets, and the
XOR transform are embedded concretely. -/

/-- `IV_LENGTH` constant of `SealService`. -/
def IV_LENGTH : Nat := 16

/-- `AUTH_TAG_LENGTH` constant of `SealService`. -/
def AUTH_TAG_LENGTH : Nat := 16

/-- The opaque AES-256-GCM primitives: `keystream key iv i` is the `i`-th
keystream byte for hex key `key` and IV `iv`; `ghash key iv body` is the
authentication tag over the ciphertext body. -/
structure AESGCM where
  keystream : String → Bytes → Nat → Nat
  ghash : String → Bytes → Bytes → Bytes

/-- XOR a byte buffer with a keystream (counter-mode body transform). -/
def xorKeystream (ks : Nat → Nat) : Bytes → Bytes
  | [] => []
  | b :: rest => (b ^^^ ks 0) :: xorKeystream (fun i => ks (i + 1)) rest

/-- `SealService.encryptCV`, with the randomly generated key and IV made
explicit inputs: encrypt the body, compute the tag, and pack
`iv ++ encrypted ++ authTag` into one buffer. -/
def encryptCV (A : AESGCM) (pdfBytes : Bytes) (encryptionKey : String)
    (iv : Bytes) : Bytes :=
  let encrypted := xorKeystream (A.keystream encryptionKey iv) pdfBytes
  let authTag := A.ghash encryptionKey iv encrypted
  iv ++ encrypted ++ authTag

/-- `SealService.decryptCV`: unpack `iv` (first 16 bytes), `authTag` (last
16 bytes) and the body between them, verify the tag, and XOR the body back;
a tag failure throws Node's GCM authentication error. -/
def decryptCV (A : AESGCM) (ciphertext : Bytes) (decryptKey : String) :
    Except String Bytes :=
  let iv := ciphertext.take IV_LENGTH
  let authTag := ciphertext.drop (ciphertext.length - AUTH_TAG_LENGTH)
  let encrypted := (ciphertext.drop IV_LENGTH).take
    (ciphertext.length - AUTH_TAG_LENGTH - IV_LENGTH)
  if A.ghash decryptKey iv encrypted == authTag then
    Except.ok (xorKeystream (A.keystream decryptKey iv) encrypted)
  else
    Except.error "Unsupported state or unable to authenticate data"

/-! ## Proof records and storage (storage.ts, schema.ts) -/

/-- A stored CV proof record, with the fields the register route passes to
`storage.createCVProof` plus the storage-assigned `id` and `createdAt`. -/
structure CVProof where
  id : String
  walletAddress : String
  fileHash : String
  sealObjectId : String
  ciphertextHash : String
  contentId : String
  storageUrl : String
  txHash : String
  proofCode : String
  secretAccessCode : Option String
  allowedViewers : Option (List String)
  createdAt : Nat
deriving DecidableEq

/-- The proof-record store: `MemStorage.cvProofs`, keyed by proof code. -/
abbrev ProofStore := String → Option CVProof

/-- The record the register route builds for `storage.createCVProof`:
`secretAccessCode` is `generatedSecretCode || null` and `allowedViewers` is
the caller's list in `specific_wallets` mode and `null` otherwise. -/
def mkCVProof (id walletAddress fileHash sealObjectId ciphertextHash
    contentId storageUrl txHash proofCode : String)
    (code : Option String) (accessMode : String)
    (allowedViewers : Option (List String)) (createdAt : Nat) : CVProof :=
  { id := id
    walletAddress := walletAddress
    fileHash := fileHash
    sealObjectId := sealObjectId
    ciphertextHash := ciphertextHash
    contentId := contentId
    storageUrl := storageUrl
    txHash := txHash
    proofCode := proofCode
    secretAccessCode := if truthy code then code else none
    allowedViewers := if accessMode == "specific_wallets" then allowedViewers else none
    createdAt := createdAt }

/-- `MemStorage.createCVProof`: insert the record under its proof code. -/
def createCVProof (store : ProofStore) (proof : CVProof) : ProofStore :=
  fun c => if c = proof.proofCode then some proof else store c

/-- `MemStorage.getCVProofByCode`. -/
def getCVProofByCode (store : ProofStore) (proofCode : String) :
    Option CVProof :=
  store proofCode

/-- Modelled from the spec: `storage.updateCVProofTxHash` is called by the
anchor-update route but the `updateAnchorTxId` implementation is not part of
the sources under `src/server/storage.ts`; the spec's persistence contract
`updateAnchorTxId(code, newTxId) -> record | absent` replaces only the
anchor transaction id of the record stored under `code`, leaving every other
field and every other record unchanged, and reports absence when the code is
unknown. Returns the updated record and the updated store. -/
def updateCVProofTxHash (store : ProofStore) (proofCode txHash : String) :
    Option (CVProof × ProofStore) :=
  match store proofCode with
  | none => none
  | some proof =>
    let updated := { proof with txHash := txHash }
    some (updated, fun c => if c = proofCode then some updated else store c)

/-! ## Blob store (walrusService.ts) -/

/-- `retrieveFromWalrus`: the mock blob store keeps no files and returns
`null` for every content id. -/
def retrieveFromWalrus (_contentId : String) : Option Bytes :=
  none

/-! ## Route handlers (routes.ts) -/

/-- An HTTP response produced by a route handler: a JSON-serialized proof
record, a JSON message with a status code, or raw PDF bytes. -/
inductive HttpResult where
  | json (status : Nat) (body : CVProof)
  | message (status : Nat) (msg : String)
  | pdf (bytes : Bytes)
deriving DecidableEq

/-- The pipeline stages of the decrypted-retrieval handler, recorded in the
order the handler performs them. -/
inductive Step where
  | lookupProof
  | fetchBlob
  | accessCheck
  | integrityCheck
  | decrypt
deriving DecidableEq

/-- `GET /api/proof/:proofCode`: look the record up by code and serialize
the whole record as the JSON response body; 404 when absent. -/
def getProofEndpoint (store : ProofStore) (proofCode : String) : HttpResult :=
  match getCVProofByCode store proofCode with
  | none => HttpResult.message 404 "Proof not found"
  | some proof => HttpResult.json 200 proof

/-- `POST /api/proof/update-tx`: 400 when either body field is falsy,
otherwise delegate to the storage update; 404 when the update reports
absence. Returns the response and the store after the call. -/
def updateTxEndpoint (store : ProofStore)
    (proofCode txHash : Option String) : HttpResult × ProofStore :=
  if !(truthy proofCode) || !(truthy txHash) then
    (HttpResult.message 400 "Proof code and transaction hash required", store)
  else
    match updateCVProofTxHash store (proofCode.getD "") (txHash.getD "") with
    | none => (HttpResult.message 404 "Failed to update proof", store)
    | some (updated, store') => (HttpResult.json 200 updated, store')

/-- `GET /api/proof/:proofCode/decrypted`: look up the record, fetch the
ciphertext from the blob store, request the decryption key from the seal
service, verify the ciphertext hash against the persisted one, decrypt, and
serve the PDF. Thrown seal/cipher errors are mapped by the catch block via
`statusOfError`. The second component records which stages ran, in order. -/
def decryptedEndpoint (A : AESGCM) (sha256hex : Bytes → String)
    (store : ProofStore) (fetch : String → Option Bytes)
    (sealObjects : String → Option SealObject)
    (proofCode : String) (viewerAddress secretAccessCode : Option String) :
    HttpResult × List Step :=
  match getCVProofByCode store proofCode with
  | none => (HttpResult.message 404 "Proof not found", [Step.lookupProof])
  | some proof =>
    match fetch proof.contentId with
    | none =>
      (HttpResult.message 404 "Encrypted CV not found",
       [Step.lookupProof, Step.fetchBlob])
    | some encryptedBuffer =>
      match getDecryptionKey sealObjects proof.sealObjectId
          viewerAddress secretAccessCode with
      | Except.error msg =>
        (HttpResult.message (statusOfError msg) msg,
         [Step.lookupProof, Step.fetchBlob, Step.accessCheck])
      | Except.ok r =>
        let computedHash := sha256hex encryptedBuffer
        if computedHash == proof.ciphertextHash then
          match decryptCV A encryptedBuffer r.decryptKey with
          | Except.error msg =>
            (HttpResult.message (statusOfError msg) msg,
             [Step.lookupProof, Step.fetchBlob, Step.accessCheck,
              Step.integrityCheck, Step.decrypt])
          | Except.ok decryptedPDF =>
            (HttpResult.pdf decryptedPDF,
             [Step.lookupProof, Step.fetchBlob, Step.accessCheck,
              Step.integrityCheck, Step.decrypt])
        else
          (HttpResult.message 400
            "CV integrity check failed. File may have been tampered with.",
           [Step.lookupProof, Step.fetchBlob, Step.accessCheck,
            Step.integrityCheck])

/-! ## General lemmas about the cipher engine -/

theorem xorKeystream_length (ks : Nat → Nat) (l : Bytes) :
    (xorKeystream ks l).length = l.length := by
  induction l generalizing ks with
  | nil => rfl
  | cons b rest ih => simp [xorKeystream, ih]

theorem xorKeystream_involutive (ks : Nat → Nat) (l : Bytes) :
    xorKeystream ks (xorKeystream ks l) = l := by
  induction l generalizing ks with
  | nil => rfl
  | cons b rest ih =>
    simp only [xorKeystream, ih]
    rw [Nat.xor_cancel_right]

/-! ## Claims -/

/-- Seal-service state holding one object registered in `specific_wallets`
mode: owner `0xAAA1234567`, allowed viewers `["0x1111234567"]`. -/
def c1SealObjects : String → Option SealObject := fun i =>
  if i = "seal_1" then
    some (registerSealObject "specific_wallets" "0xAAA1234567"
      ["0x1111234567"] none "key1" 0)
  else none

/-- C1: the claim states that for a `specific_wallets` policy with viewer
list V and owner O, `getDecryptionKey` with a viewer identity and no secret
code grants iff the identity is O or in V (case-insensitively) and denies
everyone else. The code refutes this: the register route sets
`requireApproval := (accessMode == "owner_only")`, so in `specific_wallets`
mode `requireApproval` is `false` and the evaluator's
`isOwner || isAllowedViewer || !requireApproval` grants every identity.
Here `0x2221234567` — neither the owner nor an allowed viewer under
case-insensitive comparison — is granted the stored encryption key. -/
theorem c1_specific_wallets_grants_stranger :
    getDecryptionKey c1SealObjects "seal_1" (some "0x2221234567") none =
      Except.ok { decryptKey := "key1", approved := true } ∧
    toLowerStr "0x2221234567" ≠ toLowerStr "0xAAA1234567" ∧
    (∀ a ∈ ["0x1111234567"], toLowerStr a ≠ toLowerStr "0x2221234567") := by
  refine ⟨rfl, by decide, by decide⟩

/-- Seal-service state holding one object registered in `secret_code` mode
with the generated code `a1b2c3d4e5f60789` and owner `0xBBB1234567`. -/
def c2SealObjects : String → Option SealObject := fun i =>
  if i = "seal_2" then
    some (registerSealObject "secret_code" "0xBBB1234567" []
      (generatedSecretCode "secret_code" none "a1b2c3d4e5f60789") "key2" 0)
  else none

/-- C2: the claim states that for a `secret_code` policy with stored code C,
`getDecryptionKey` grants iff the presented code equals C exactly, and any
request without the matching code is denied. The code refutes the "only if"
direction: in `secret_code` mode the register route sets
`requireApproval := false`, so a request presenting only a wallet identity
(no code at all) is granted by the `!requireApproval` disjunct. Here a
stranger wallet with no code obtains the stored encryption key. -/
theorem c2_secret_code_wallet_bypass :
    (c2SealObjects "seal_2").map (fun so => so.policy.secretAccessCode) =
      some (some "a1b2c3d4e5f60789") ∧
    getDecryptionKey c2SealObjects "seal_2" (some "0xCCC7654321") none =
      Except.ok { decryptKey := "key2", approved := true } ∧
    toLowerStr "0xCCC7654321" ≠ toLowerStr "0xBBB1234567" := by
  refine ⟨rfl, rfl, by decide⟩

/-- The proof record the register route persists for a `secret_code`
registration whose code was freshly generated as `deadbeefdeadbeef`. -/
def c3Proof : CVProof :=
  mkCVProof "id3" "0xDDD1234567" "filehash3" "seal_3" "cipherhash3"
    "content3" "https://walrus.storage/blob/content3" "tx3" "proof3"
    (generatedSecretCode "secret_code" none "deadbeefdeadbeef")
    "secret_code" none 0

/-- Proof store after that registration. -/
def c3Store : ProofStore := createCVProof (fun _ => none) c3Proof

/-- C3: the claim states that the generated secret access code is returned
only in the registration response and that no later operation — in
particular the proof lookup by proof code — returns it. The code refutes
this: the register route persists `secretAccessCode` in the proof record,
and `GET /api/proof/:proofCode` serializes the whole stored record with
`res.json(proof)`, so the lookup response for the shareable proof code
contains the stored secret access code. -/
theorem c3_lookup_returns_secret_code :
    getProofEndpoint c3Store "proof3" = HttpResult.json 200 c3Proof ∧
    c3Proof.secretAccessCode = some "deadbeefdeadbeef" :=
  ⟨rfl, rfl⟩

/-- C4: for every seal object created by the register route in `owner_only`
mode with owner O, `getDecryptionKey` with a (non-empty) viewer identity and
no secret code grants — returning the stored encryption key — iff the
identity equals O under case-insensitive comparison, and denies every other
identity with an access-denied error. Holds because the route sets
`requireApproval := true` and an empty allowed-viewer list in this mode. -/
theorem c4_owner_only_iff (sealObjects : String → Option SealObject)
    (oid owner key viewer : String) (viewers : List String)
    (code : Option String) (createdAt : Nat)
    (hso : sealObjects oid =
      some (registerSealObject "owner_only" owner viewers code key createdAt))
    (hv : viewer ≠ "") :
    (toLowerStr viewer = toLowerStr owner →
       getDecryptionKey sealObjects oid (some viewer) none =
         Except.ok { decryptKey := key, approved := true }) ∧
    (toLowerStr viewer ≠ toLowerStr owner →
       getDecryptionKey sealObjects oid (some viewer) none =
         Except.error ("Access denied. Wallet " ++ viewer ++
           " is not authorized to decrypt this CV.")) := by
  constructor
  · intro h
    simp [getDecryptionKey, hso, registerSealObject, mkPolicy, truthy, hv, h]
  · intro h
    simp [getDecryptionKey, hso, registerSealObject, mkPolicy, truthy, hv, h]

/-- Seal-service state for the C4 witness: an `owner_only` object owned by
`0xAbC1234567`. -/
def c4SealObjects : String → Option SealObject := fun i =>
  if i = "s4" then
    some (registerSealObject "owner_only" "0xAbC1234567" [] none "key4" 0)
  else none

/-- Witness for C4 at owner `0xAbC1234567` and case-differing requester
`0xABC1234567`. -/
theorem c4_owner_only_iff_witness :
    (toLowerStr "0xABC1234567" = toLowerStr "0xAbC1234567" →
       getDecryptionKey c4SealObjects "s4" (some "0xABC1234567") none =
         Except.ok { decryptKey := "key4", approved := true }) ∧
    (toLowerStr "0xABC1234567" ≠ toLowerStr "0xAbC1234567" →
       getDecryptionKey c4SealObjects "s4" (some "0xABC1234567") none =
         Except.error ("Access denied. Wallet " ++ "0xABC1234567" ++
           " is not authorized to decrypt this CV.")) :=
  c4_owner_only_iff c4SealObjects "s4" "0xAbC1234567" "key4" "0xABC1234567"
    [] none 0 rfl (by decide)

/-- C5: on the decrypted-retrieval path, whenever the hash of the fetched
ciphertext differs from the persisted `ciphertextHash` (with the record
found, the blob fetched, and access granted, so that the integrity stage is
reached), the request fails with the integrity-failure response (HTTP 400)
and the decryption stage is never invoked on those bytes: the integrity
check runs, and `decryptCV` does not appear in the executed stages. -/
theorem c5_integrity_blocks_decrypt (A : AESGCM) (sha256hex : Bytes → String)
    (store : ProofStore) (fetch : String → Option Bytes)
    (sealObjects : String → Option SealObject) (pc : String)
    (v c : Option String) (proof : CVProof) (buf : Bytes) (r : GetKeyResult)
    (hstore : store pc = some proof)
    (hfetch : fetch proof.contentId = some buf)
    (hkey : getDecryptionKey sealObjects proof.sealObjectId v c = Except.ok r)
    (hmismatch : sha256hex buf ≠ proof.ciphertextHash) :
    decryptedEndpoint A sha256hex store fetch sealObjects pc v c =
      (HttpResult.message 400
        "CV integrity check failed. File may have been tampered with.",
       [Step.lookupProof, Step.fetchBlob, Step.accessCheck,
        Step.integrityCheck]) ∧
    Step.integrityCheck ∈
      (decryptedEndpoint A sha256hex store fetch sealObjects pc v c).2 ∧
    Step.decrypt ∉
      (decryptedEndpoint A sha256hex store fetch sealObjects pc v c).2 := by
  have h : decryptedEndpoint A sha256hex store fetch sealObjects pc v c =
      (HttpResult.message 400
        "CV integrity check failed. File may have been tampered with.",
       [Step.lookupProof, Step.fetchBlob, Step.accessCheck,
        Step.integrityCheck]) := by
    simp [decryptedEndpoint, getCVProofByCode, hstore, hfetch, hkey, hmismatch]
  exact ⟨h, by rw [h]; decide, by rw [h]; decide⟩

/-- Trivial cipher primitives for concrete witnesses. -/
def trivAES : AESGCM :=
  { keystream := fun _ _ _ => 0, ghash := fun _ _ _ => List.replicate 16 0 }

/-- Proof record for the C5 witness, persisted with ciphertext hash `h2`. -/
def c5Proof : CVProof :=
  { id := "id5", walletAddress := "0xEEE1234567", fileHash := "fh5"
    sealObjectId := "s5", ciphertextHash := "h2", contentId := "content5"
    storageUrl := "url5", txHash := "tx5", proofCode := "p5"
    secretAccessCode := none, allowedViewers := none, createdAt := 0 }

/-- Proof store for the C5 witness. -/
def c5Store : ProofStore := fun c => if c = "p5" then some c5Proof else none

/-- Seal-service state for the C5 witness: `owner_only` object owned by the
record's wallet. -/
def c5SealObjects : String → Option SealObject := fun i =>
  if i = "s5" then
    some (registerSealObject "owner_only" "0xEEE1234567" [] none "key5" 0)
  else none

/-- Witness for C5: the owner requests their own record, the fetched bytes
hash to `h1` while the record stores `h2`, and the request stops at the
integrity stage. -/
theorem c5_integrity_blocks_decrypt_witness :
    decryptedEndpoint trivAES (fun _ => "h1") c5Store (fun _ => some [1, 2])
        c5SealObjects "p5" (some "0xEEE1234567") none =
      (HttpResult.message 400
        "CV integrity check failed. File may have been tampered with.",
       [Step.lookupProof, Step.fetchBlob, Step.accessCheck,
        Step.integrityCheck]) ∧
    Step.integrityCheck ∈
      (decryptedEndpoint trivAES (fun _ => "h1") c5Store (fun _ => some [1, 2])
        c5SealObjects "p5" (some "0xEEE1234567") none).2 ∧
    Step.decrypt ∉
      (decryptedEndpoint trivAES (fun _ => "h1") c5Store (fun _ => some [1, 2])
        c5SealObjects "p5" (some "0xEEE1234567") none).2 :=
  c5_integrity_blocks_decrypt trivAES (fun _ => "h1") c5Store
    (fun _ => some [1, 2]) c5SealObjects "p5" (some "0xEEE1234567") none
    c5Proof [1, 2] { decryptKey := "key5", approved := true }
    rfl rfl rfl (by decide)

/-- C6: for every plaintext byte buffer P, decrypting the ciphertext
produced by `encryptCV` with the key stored for the seal object yields
exactly P, with the ciphertext packed as `iv ++ encrypted ++ authTag`,
a 16-byte IV and a 16-byte authentication tag (the tag-length law of the
GCM primitive). -/
theorem c6_decrypt_encrypt_roundtrip (A : AESGCM) (P : Bytes) (K : String)
    (iv : Bytes) (hiv : iv.length = 16)
    (htag : ∀ k i m, (A.ghash k i m).length = 16) :
    decryptCV A (encryptCV A P K iv) K = Except.ok P := by
  have henc : (xorKeystream (A.keystream K iv) P).length = P.length :=
    xorKeystream_length _ _
  set enc := xorKeystream (A.keystream K iv) P with hencdef
  set tag := A.ghash K iv enc with htagdef
  have htaglen : tag.length = 16 := htag K iv enc
  have hct : encryptCV A P K iv = iv ++ enc ++ tag := rfl
  have hivpart : (iv ++ enc ++ tag).take IV_LENGTH = iv := by
    rw [List.append_assoc]
    exact List.take_left' hiv
  have htagpart :
      (iv ++ enc ++ tag).drop ((iv ++ enc ++ tag).length - AUTH_TAG_LENGTH) =
        tag := by
    have h1 : (iv ++ enc ++ tag).length - AUTH_TAG_LENGTH =
        (iv ++ enc).length := by
      simp [List.length_append, hiv, henc, htaglen, AUTH_TAG_LENGTH]
      omega
    rw [h1]
    exact List.drop_left (iv ++ enc) tag
  have hencpart :
      ((iv ++ enc ++ tag).drop IV_LENGTH).take
        ((iv ++ enc ++ tag).length - AUTH_TAG_LENGTH - IV_LENGTH) = enc := by
    have h1 : (iv ++ enc ++ tag).drop IV_LENGTH = enc ++ tag := by
      rw [List.append_assoc]
      exact List.drop_left' hiv
    have h2 : (iv ++ enc ++ tag).length - AUTH_TAG_LENGTH - IV_LENGTH =
        enc.length := by
      simp [List.length_append, hiv, henc, htaglen, AUTH_TAG_LENGTH, IV_LENGTH]
    rw [h1, h2, List.take_left]
  rw [hct]
  unfold decryptCV
  simp only [hivpart, htagpart, hencpart]
  rw [htagdef]
  simp only [beq_self_eq_true, if_true]
  rw [hencdef, xorKeystream_involutive]

/-- Witness for C6 with the trivial primitives, a 16-byte IV and the
plaintext `%PDF`. -/
theorem c6_decrypt_encrypt_roundtrip_witness :
    decryptCV trivAES
      (encryptCV trivAES [37, 80, 68, 70] "6b" (List.replicate 16 1)) "6b" =
      Except.ok [37, 80, 68, 70] :=
  c6_decrypt_encrypt_roundtrip trivAES [37, 80, 68, 70] "6b"
    (List.replicate 16 1) (by decide) (fun _ _ _ => by simp [trivAES])

/-- C7: when both a viewer identity and a secret code are supplied (both
non-empty) and the policy stores a (non-empty) code, the secret code is
checked first: a match grants immediately, and a mismatch denies immediately
with the invalid-code error — the result does not depend on the identity, so
there is no fall-back to identity-based evaluation even when the identity
alone would have been granted. -/
theorem c7_secret_code_precedence (sealObjects : String → Option SealObject)
    (oid : String) (so : SealObject) (stored viewer code : String)
    (hso : sealObjects oid = some so)
    (hstored : so.policy.secretAccessCode = some stored)
    (hs : stored ≠ "") (hc : code ≠ "") :
    getDecryptionKey sealObjects oid (some viewer) (some code) =
      if code = stored then
        Except.ok { decryptKey := so.encryptionKey, approved := true }
      else
        Except.error "Access denied. Invalid secret access code." := by
  by_cases h : code = stored <;>
    simp [getDecryptionKey, hso, hstored, truthy, hc, hs, h]

/-- Seal object for the C7 witness: secret code `SecretCode123456`, owner
`0xFFF1234567`, open policy otherwise. -/
def c7Object : SealObject :=
  { ownerAddress := "0xFFF1234567", encryptionKey := "key7"
    policy := { allowedViewers := [], secretAccessCode := some "SecretCode123456"
                requireApproval := false }
    createdAt := 0 }

/-- Seal-service state for the C7 witness. -/
def c7SealObjects : String → Option SealObject := fun i =>
  if i = "s7" then some c7Object else none

/-- Witness for C7: the owner themselves presents a case-flipped near-miss
code; the result is the mismatch branch, not an identity-based grant. -/
theorem c7_secret_code_precedence_witness :
    getDecryptionKey c7SealObjects "s7" (some "0xFFF1234567")
        (some "secretcode123456") =
      if "secretcode123456" = "SecretCode123456" then
        Except.ok { decryptKey := c7Object.encryptionKey, approved := true }
      else
        Except.error "Access denied. Invalid secret access code." :=
  c7_secret_code_precedence c7SealObjects "s7" c7Object "SecretCode123456"
    "0xFFF1234567" "secretcode123456" rfl rfl (by decide) (by decide)

/-- Seal-service state for C8: one `owner_only` object. -/
def c8SealObjects : String → Option SealObject := fun i =>
  if i = "seal_8" then
    some (registerSealObject "owner_only" "0xHHH1234567" [] none "key8" 0)
  else none

/-- C8 counterexample: the claim says a credential-less call fails with a
`MissingCredentialError`, an error kind distinct from `AccessDeniedError`.
The code has no such distinct kind: the credential-less branch throws an
error whose message begins `Access denied.`, and the route's catch block
maps it by exactly that substring to the same HTTP 403 status as the
policy-refusal errors, so end to end it is of the access-denied kind. -/
theorem c8_missing_credential_counterexample :
    getDecryptionKey c8SealObjects "seal_8" none none =
      Except.error
        "Access denied. Please provide either a wallet address or secret access code." ∧
    strIncludes
        "Access denied. Please provide either a wallet address or secret access code."
        "Access denied" = true ∧
    statusOfError
        "Access denied. Please provide either a wallet address or secret access code." =
      statusOfError "Access denied. Invalid secret access code." := by
  refine ⟨rfl, by decide, by decide⟩

/-- C8 (amended): for every seal object, calling `getDecryptionKey` with
neither a viewer identity nor a secret code fails, with a message
(`Access denied. Please provide either a wallet address or secret access
code.`) that differs textually from the policy-refusal messages but belongs
to the same access-denied error kind: it carries the `Access denied` marker
the route matches on and is mapped to HTTP 403, exactly like an
`AccessDeniedError`; no distinct `MissingCredentialError` kind exists. -/
theorem c8_missing_credential_message (sealObjects : String → Option SealObject)
    (oid : String) (so : SealObject) (hso : sealObjects oid = some so) :
    getDecryptionKey sealObjects oid none none =
      Except.error
        "Access denied. Please provide either a wallet address or secret access code." ∧
    "Access denied. Please provide either a wallet address or secret access code." ≠
      "Access denied. Invalid secret access code." ∧
    statusOfError
        "Access denied. Please provide either a wallet address or secret access code." =
      403 := by
  refine ⟨by simp [getDecryptionKey, hso, truthy], by decide, by decide⟩

/-- Witness for C8 on the concrete seal state. -/
theorem c8_missing_credential_message_witness :
    getDecryptionKey c8SealObjects "seal_8" none none =
      Except.error
        "Access denied. Please provide either a wallet address or secret access code." ∧
    "Access denied. Please provide either a wallet address or secret access code." ≠
      "Access denied. Invalid secret access code." ∧
    statusOfError
        "Access denied. Please provide either a wallet address or secret access code." =
      403 :=
  c8_missing_credential_message c8SealObjects "seal_8"
    (registerSealObject "owner_only" "0xHHH1234567" [] none "key8" 0) rfl

/-- C9: the anchor-update operation with a proof code and a new transaction
id replaces only the `txHash` field of the record stored under that code —
the updated record agrees with the old one on every other field — leaves
every other record unchanged, and responds 404 when no record exists for the
code. The storage operation itself is modelled from the spec (see
`updateCVProofTxHash`); the route handler is embedded from the source. -/
theorem c9_anchor_update_frame (store : ProofStore) (pc tx : String)
    (hpc : pc ≠ "") (htx : tx ≠ "") :
    (store pc = none →
       updateTxEndpoint store (some pc) (some tx) =
         (HttpResult.message 404 "Failed to update proof", store)) ∧
    (∀ p, store pc = some p → ∃ q,
       (updateTxEndpoint store (some pc) (some tx)).1 =
         HttpResult.json 200 q ∧
       (updateTxEndpoint store (some pc) (some tx)).2 pc = some q ∧
       q.txHash = tx ∧
       q.id = p.id ∧ q.walletAddress = p.walletAddress ∧
       q.fileHash = p.fileHash ∧ q.sealObjectId = p.sealObjectId ∧
       q.ciphertextHash = p.ciphertextHash ∧ q.contentId = p.contentId ∧
       q.storageUrl = p.storageUrl ∧ q.proofCode = p.proofCode ∧
       q.secretAccessCode = p.secretAccessCode ∧
       q.allowedViewers = p.allowedViewers ∧ q.createdAt = p.createdAt) ∧
    (∀ c, c ≠ pc →
       (updateTxEndpoint store (some pc) (some tx)).2 c = store c) := by
  refine ⟨?_, ?_, ?_⟩
  · intro h
    simp [updateTxEndpoint, truthy, hpc, htx, updateCVProofTxHash, h]
  · intro p hp
    refine ⟨{ p with txHash := tx }, ?_⟩
    simp [updateTxEndpoint, truthy, hpc, htx, updateCVProofTxHash, hp]
  · intro c hc
    by_cases h : store pc = none
    · simp [updateTxEndpoint, truthy, hpc, htx, updateCVProofTxHash, h]
    · match hp : store pc with
      | none => exact absurd hp h
      | some p =>
        simp [updateTxEndpoint, truthy, hpc, htx, updateCVProofTxHash, hp, hc]

/-- Proof record for the C9 witness. -/
def c9Proof : CVProof :=
  { id := "id9", walletAddress := "0xJJJ1234567", fileHash := "fh9"
    sealObjectId := "s9", ciphertextHash := "ch9", contentId := "content9"
    storageUrl := "url9", txHash := "pending_tx", proofCode := "p9"
    secretAccessCode := none, allowedViewers := none, createdAt := 0 }

/-- Proof store for the C9 witness. -/
def c9Store : ProofStore := fun c => if c = "p9" then some c9Proof else none

/-- Witness for C9 at the concrete store, updating `p9` to `0xconfirmed`. -/
theorem c9_anchor_update_frame_witness :
    (c9Store "p9" = none →
       updateTxEndpoint c9Store (some "p9") (some "0xconfirmed") =
         (HttpResult.message 404 "Failed to update proof", c9Store)) ∧
    (∀ p, c9Store "p9" = some p → ∃ q,
       (updateTxEndpoint c9Store (some "p9") (some "0xconfirmed")).1 =
         HttpResult.json 200 q ∧
       (updateTxEndpoint c9Store (some "p9") (some "0xconfirmed")).2 "p9" =
         some q ∧
       q.txHash = "0xconfirmed" ∧
       q.id = p.id ∧ q.walletAddress = p.walletAddress ∧
       q.fileHash = p.fileHash ∧ q.sealObjectId = p.sealObjectId ∧
       q.ciphertextHash = p.ciphertextHash ∧ q.contentId = p.contentId ∧
       q.storageUrl = p.storageUrl ∧ q.proofCode = p.proofCode ∧
       q.secretAccessCode = p.secretAccessCode ∧
       q.allowedViewers = p.allowedViewers ∧ q.createdAt = p.createdAt) ∧
    (∀ c, c ≠ "p9" →
       (updateTxEndpoint c9Store (some "p9") (some "0xconfirmed")).2 c =
         c9Store c) :=
  c9_anchor_update_frame c9Store "p9" "0xconfirmed" (by decide) (by decide)

/-- C10: the mock blob store returns absent for every content id, so every
decrypted-retrieval call for any registered proof and any credential fails
with the 404 `Encrypted CV not found` response and never reaches access
evaluation, integrity verification, or decryption. -/
theorem c10_walrus_absent_blocks_pipeline (A : AESGCM)
    (sha256hex : Bytes → String) (store : ProofStore)
    (sealObjects : String → Option SealObject) (pc : String)
    (v c : Option String) (proof : CVProof)
    (hstore : store pc = some proof) :
    (∀ contentId, retrieveFromWalrus contentId = none) ∧
    decryptedEndpoint A sha256hex store retrieveFromWalrus sealObjects pc v c =
      (HttpResult.message 404 "Encrypted CV not found",
       [Step.lookupProof, Step.fetchBlob]) ∧
    Step.accessCheck ∉
      (decryptedEndpoint A sha256hex store retrieveFromWalrus sealObjects pc v c).2 ∧
    Step.integrityCheck ∉
      (decryptedEndpoint A sha256hex store retrieveFromWalrus sealObjects pc v c).2 ∧
    Step.decrypt ∉
      (decryptedEndpoint A sha256hex store retrieveFromWalrus sealObjects pc v c).2 := by
  have h : decryptedEndpoint A sha256hex store retrieveFromWalrus sealObjects
      pc v c =
      (HttpResult.message 404 "Encrypted CV not found",
       [Step.lookupProof, Step.fetchBlob]) := by
    simp [decryptedEndpoint, getCVProofByCode, hstore, retrieveFromWalrus]
  exact ⟨fun _ => rfl, h, by rw [h]; decide, by rw [h]; decide,
    by rw [h]; decide⟩

/-- Proof record for the C10 witness. -/
def c10Proof : CVProof :=
  { id := "id10", walletAddress := "0xKKK1234567", fileHash := "fh10"
    sealObjectId := "s10", ciphertextHash := "ch10", contentId := "content10"
    storageUrl := "url10", txHash := "tx10", proofCode := "p10"
    secretAccessCode := none, allowedViewers := none, createdAt := 0 }

/-- Proof store for the C10 witness. -/
def c10Store : ProofStore := fun c => if c = "p10" then some c10Proof else none

/-- Witness for C10: even the record's owner requesting their own proof gets
the blob-absent 404. -/
theorem c10_walrus_absent_blocks_pipeline_witness :
    (∀ contentId, retrieveFromWalrus contentId = none) ∧
    decryptedEndpoint trivAES (fun _ => "ch10") c10Store retrieveFromWalrus
        (fun _ => none) "p10" (some "0xKKK1234567") none =
      (HttpResult.message 404 "Encrypted CV not found",
       [Step.lookupProof, Step.fetchBlob]) ∧
    Step.accessCheck ∉
      (decryptedEndpoint trivAES (fun _ => "ch10") c10Store retrieveFromWalrus
        (fun _ => none) "p10" (some "0xKKK1234567") none).2 ∧
    Step.integrityCheck ∉
      (decryptedEndpoint trivAES (fun _ => "ch10") c10Store retrieveFromWalrus
        (fun _ => none) "p10" (some "0xKKK1234567") none).2 ∧
    Step.decrypt ∉
      (decryptedEndpoint trivAES (fun _ => "ch10") c10Store retrieveFromWalrus
        (fun _ => none) "p10" (some "0xKKK1234567") none).2 :=
  c10_walrus_absent_blocks_pipeline trivAES (fun _ => "ch10") c10Store
    (fun _ => none) "p10" (some "0xKKK1234567") none c10Proof rfl

end PDFVault
